import Mathlib

/-!
Verification of the GCS logging `update` command of the Fastly CLI
(`pkg/logging/gcs/update.go`).

The command is a read-modify-write against a remote resource: it resolves
a service ID from the `--service-id` flag or the local manifest, fetches
the current GCS logging endpoint with `GetGCS`, overwrites each field whose
optional CLI flag was supplied, sends the merged input with `UpdateGCS`,
and prints a formatted success message.

The embedding is shallow: the API client is a pair of response functions,
and `createInput` / `Exec` additionally return the list of client calls
they issued and the lines written to the output, so that claims about
"which calls are made" and "what is printed" are statable.
-/

namespace FastlyGCS

/-- Modelled from the spec: the source a service ID was resolved from.
`manifest.Source` is repository code not included under `src/`; the spec
says a manifest is "a local project file supplying a default service ID
when none is passed via flag", and `createInput` tests for
`manifest.SourceUndefined`. -/
inductive Source where
  | flag
  | file
  | undefined
deriving DecidableEq, Repr

/-- Modelled from the spec: the manifest data visible to the command —
the `--service-id` flag value and the service ID read from the local
manifest file. An empty string stands for "not supplied". -/
structure ManifestData where
  flagServiceID : String
  fileServiceID : String
deriving DecidableEq, Repr

/-- Modelled from the spec: `manifest.Data.ServiceID()` — repository code
not included under `src/`. The spec: the manifest is "a local project file
supplying a default service ID when none is passed via flag", i.e. the flag
value wins when present, otherwise the file value, otherwise resolution is
undefined. -/
def ManifestData.serviceID (m : ManifestData) : String × Source :=
  if m.flagServiceID ≠ "" then (m.flagServiceID, Source.flag)
  else if m.fileServiceID ≠ "" then (m.fileServiceID, Source.file)
  else ("", Source.undefined)

/-- Modelled from the spec: `common.OptionalString` — "a present flag
paired with a value, used to distinguish flag-not-given from
flag-given-with-the-zero-value". -/
structure OptionalString where
  Valid : Bool
  Value : String
deriving DecidableEq, Repr

/-- Modelled from the spec: `common.OptionalUint`, same presence-bit
pattern with a machine unsigned integer value. -/
structure OptionalUint where
  Valid : Bool
  Value : Nat
deriving DecidableEq, Repr

/-- Modelled from the spec: `common.OptionalUint8`, same presence-bit
pattern with an 8-bit unsigned value. No arithmetic is ever performed on
it, so `Nat` is a faithful carrier. -/
structure OptionalUint8 where
  Valid : Bool
  Value : Nat
deriving DecidableEq, Repr

/-- The flag state of `UpdateCommand` (update.go lines 15-37): the
required `--version` and `--name` values, the manifest data carrying
`--service-id`, and the thirteen optional flags. -/
structure UpdateCommand where
  manifest : ManifestData
  EndpointName : String
  Version : Int
  NewName : OptionalString
  Bucket : OptionalString
  User : OptionalString
  SecretKey : OptionalString
  Path : OptionalString
  Period : OptionalUint
  FormatVersion : OptionalUint
  GzipLevel : OptionalUint8
  Format : OptionalString
  ResponseCondition : OptionalString
  TimestampFormat : OptionalString
  MessageType : OptionalString
  Placement : OptionalString
deriving DecidableEq, Repr

/-- The fields of `fastly.GCS` read by `createInput` and `Exec`: the
remote GCS logging endpoint object returned by the API client. -/
structure GCS where
  ServiceID : String
  Version : Int
  Name : String
  Bucket : String
  User : String
  SecretKey : String
  Path : String
  Period : Nat
  FormatVersion : Nat
  GzipLevel : Nat
  Format : String
  MessageType : String
  ResponseCondition : String
  TimestampFormat : String
  Placement : String
deriving DecidableEq, Repr

/-- `fastly.GetGCSInput` as built at update.go lines 75-79. -/
structure GetGCSInput where
  Service : String
  Name : String
  Version : Int
deriving DecidableEq, Repr

/-- `fastly.UpdateGCSInput` as populated at update.go lines 84-154. -/
structure UpdateGCSInput where
  Service : String
  Version : Int
  Name : String
  NewName : String
  Bucket : String
  User : String
  SecretKey : String
  Path : String
  Period : Nat
  FormatVersion : Nat
  GzipLevel : Nat
  Format : String
  MessageType : String
  ResponseCondition : String
  TimestampFormat : String
  Placement : String
deriving DecidableEq, Repr

/-- The errors `createInput` and `Exec` can return: the local validation
error `errors.ErrNoServiceID`, or an arbitrary error surfaced by the API
client. -/
inductive Err where
  | noServiceID
  | api (msg : String)
deriving DecidableEq, Repr

/-- A call issued against the API client. -/
inductive ApiCall where
  | getGCS (i : GetGCSInput)
  | updateGCS (i : UpdateGCSInput)
deriving DecidableEq, Repr

/-- The API client, as the two methods the update command uses: each
request either fails with an error or returns a GCS endpoint object. -/
structure Client where
  GetGCS : GetGCSInput → Except Err GCS
  UpdateGCS : UpdateGCSInput → Except Err GCS

/-- The `fastly.GetGCSInput` literal of update.go lines 75-79. -/
def UpdateCommand.fetchInput (c : UpdateCommand) : GetGCSInput :=
  { Service := (c.manifest.serviceID).1
    Name := c.EndpointName
    Version := c.Version }

/-- `UpdateCommand.createInput` (update.go lines 69-157): resolve the
service ID (returning `ErrNoServiceID` when undefined), fetch the current
endpoint with `GetGCS`, seed the update input from the fetched object and
overwrite each field whose optional flag is marked valid. Returns the
result together with the list of client calls issued. -/
def UpdateCommand.createInput (c : UpdateCommand) (client : Client) :
    Except Err UpdateGCSInput × List ApiCall :=
  let source := (c.manifest.serviceID).2
  if source = Source.undefined then
    (Except.error Err.noServiceID, [])
  else
    match client.GetGCS c.fetchInput with
    | Except.error e => (Except.error e, [ApiCall.getGCS c.fetchInput])
    | Except.ok gcs =>
      let input : UpdateGCSInput :=
        { Service := gcs.ServiceID
          Version := gcs.Version
          Name := gcs.Name
          NewName := gcs.Name
          Bucket := gcs.Bucket
          User := gcs.User
          SecretKey := gcs.SecretKey
          Path := gcs.Path
          Period := gcs.Period
          FormatVersion := gcs.FormatVersion
          GzipLevel := gcs.GzipLevel
          Format := gcs.Format
          MessageType := gcs.MessageType
          ResponseCondition := gcs.ResponseCondition
          TimestampFormat := gcs.TimestampFormat
          Placement := gcs.Placement }
      let input := if c.NewName.Valid then { input with NewName := c.NewName.Value } else input
      let input := if c.Bucket.Valid then { input with Bucket := c.Bucket.Value } else input
      let input := if c.User.Valid then { input with User := c.User.Value } else input
      let input := if c.SecretKey.Valid then { input with SecretKey := c.SecretKey.Value } else input
      let input := if c.Path.Valid then { input with Path := c.Path.Value } else input
      let input := if c.Period.Valid then { input with Period := c.Period.Value } else input
      let input := if c.FormatVersion.Valid then { input with FormatVersion := c.FormatVersion.Value } else input
      let input := if c.GzipLevel.Valid then { input with GzipLevel := c.GzipLevel.Value } else input
      let input := if c.Format.Valid then { input with Format := c.Format.Value } else input
      let input := if c.ResponseCondition.Valid then { input with ResponseCondition := c.ResponseCondition.Value } else input
      let input := if c.TimestampFormat.Valid then { input with TimestampFormat := c.TimestampFormat.Value } else input
      let input := if c.MessageType.Valid then { input with MessageType := c.MessageType.Value } else input
      let input := if c.Placement.Valid then { input with Placement := c.Placement.Value } else input
      (Except.ok input, [ApiCall.getGCS c.fetchInput])

/-- The success line of update.go line 171. The format string
`Updated GCS logging endpoint %s (service %s version %d)` is in the
source; the leading `SUCCESS: ` tag is modelled from the spec's "formatted
confirmation message" produced by `text.Success`. -/
def successMessage (name serviceID : String) (version : Int) : String :=
  "SUCCESS: Updated GCS logging endpoint " ++ name ++ " (service " ++
    serviceID ++ " version " ++ toString version ++ ")"

/-- `UpdateCommand.Exec` (update.go lines 160-173): build the input, send
`UpdateGCS`, print the success message. Returns the error-or-unit result,
the list of client calls issued, and the lines written to the output. -/
def UpdateCommand.Exec (c : UpdateCommand) (client : Client) :
    Except Err Unit × List ApiCall × List String :=
  match c.createInput client with
  | (Except.error e, calls) => (Except.error e, calls, [])
  | (Except.ok input, calls) =>
    match client.UpdateGCS input with
    | Except.error e => (Except.error e, calls ++ [ApiCall.updateGCS input], [])
    | Except.ok gcs =>
      (Except.ok (), calls ++ [ApiCall.updateGCS input],
        [successMessage gcs.Name gcs.ServiceID gcs.Version])

/-- Modelled from the spec: "Exit codes: 0 on success, non-zero on any
API or validation error" — the process exit mapping lives in the CLI's
main package, not under `src/`. -/
def exitCode (r : Except Err Unit) : Nat :=
  match r with
  | Except.ok _ => 0
  | Except.error _ => 1

/-- A concrete GCS endpoint object, used as the remote state in examples. -/
def gcs0 : GCS :=
  { ServiceID := "svc"
    Version := 2
    Name := "orig"
    Bucket := "bkt"
    User := "user"
    SecretKey := "sk"
    Path := "/"
    Period := 3600
    FormatVersion := 2
    GzipLevel := 0
    Format := "fmt"
    MessageType := "classic"
    ResponseCondition := ""
    TimestampFormat := "ts"
    Placement := "none" }

/-- The endpoint object after the rename requested by `cmd0`. -/
def updated0 : GCS := { gcs0 with Name := "renamed" }

/-- A client whose fetch returns `gcs0` and whose update succeeds,
renaming the endpoint to the requested `NewName`. -/
def client0 : Client :=
  { GetGCS := fun _ => Except.ok gcs0
    UpdateGCS := fun i => Except.ok { gcs0 with Name := i.NewName } }

/-- The error text used by the always-failing example client. -/
def boomMsg : String :=
  "boom"

/-- A client whose fetch always fails. -/
def clientErr : Client :=
  { GetGCS := fun _ => Except.error (Err.api boomMsg)
    UpdateGCS := fun _ => Except.error (Err.api boomMsg) }

/-- An absent optional string flag. -/
def noneStr : OptionalString := { Valid := false, Value := "" }

/-- An absent optional uint flag. -/
def noneUint : OptionalUint := { Valid := false, Value := 0 }

/-- An absent optional uint8 flag. -/
def noneUint8 : OptionalUint8 := { Valid := false, Value := 0 }

/-- A concrete invocation: service ID from the flag, `--new-name renamed`,
all other optional flags absent. -/
def cmd0 : UpdateCommand :=
  { manifest := { flagServiceID := "svc", fileServiceID := "" }
    EndpointName := "orig"
    Version := 2
    NewName := { Valid := true, Value := "renamed" }
    Bucket := noneStr
    User := noneStr
    SecretKey := noneStr
    Path := noneStr
    Period := noneUint
    FormatVersion := noneUint
    GzipLevel := noneUint8
    Format := noneStr
    ResponseCondition := noneStr
    TimestampFormat := noneStr
    MessageType := noneStr
    Placement := noneStr }

/-- The update input `cmd0` produces against `client0`. -/
def input0 : UpdateGCSInput :=
  { Service := "svc"
    Version := 2
    Name := "orig"
    NewName := "renamed"
    Bucket := "bkt"
    User := "user"
    SecretKey := "sk"
    Path := "/"
    Period := 3600
    FormatVersion := 2
    GzipLevel := 0
    Format := "fmt"
    MessageType := "classic"
    ResponseCondition := ""
    TimestampFormat := "ts"
    Placement := "none" }

/-- Like `cmd0` but with no service ID from either the flag or the file. -/
def cmdNoID : UpdateCommand := { cmd0 with manifest := { flagServiceID := "", fileServiceID := "" } }

/-- Like `cmd0` but without `--new-name`. -/
def cmd1 : UpdateCommand := { cmd0 with NewName := noneStr }

/-- The update input `cmd1` produces against `client0`. -/
def input1 : UpdateGCSInput := { input0 with NewName := "orig" }

end FastlyGCS

namespace FastlyGCS

attribute [ext] UpdateGCSInput

set_option maxHeartbeats 8000000 in
theorem createInput_get_ok (c : UpdateCommand) (client : Client) (gcs : GCS)
    (hsrc : (c.manifest.serviceID).2 ≠ Source.undefined)
    (hget : client.GetGCS c.fetchInput = Except.ok gcs) :
    c.createInput client =
      (Except.ok
        { Service := gcs.ServiceID
          Version := gcs.Version
          Name := gcs.Name
          NewName := if c.NewName.Valid then c.NewName.Value else gcs.Name
          Bucket := if c.Bucket.Valid then c.Bucket.Value else gcs.Bucket
          User := if c.User.Valid then c.User.Value else gcs.User
          SecretKey := if c.SecretKey.Valid then c.SecretKey.Value else gcs.SecretKey
          Path := if c.Path.Valid then c.Path.Value else gcs.Path
          Period := if c.Period.Valid then c.Period.Value else gcs.Period
          FormatVersion := if c.FormatVersion.Valid then c.FormatVersion.Value else gcs.FormatVersion
          GzipLevel := if c.GzipLevel.Valid then c.GzipLevel.Value else gcs.GzipLevel
          Format := if c.Format.Valid then c.Format.Value else gcs.Format
          MessageType := if c.MessageType.Valid then c.MessageType.Value else gcs.MessageType
          ResponseCondition := if c.ResponseCondition.Valid then c.ResponseCondition.Value else gcs.ResponseCondition
          TimestampFormat := if c.TimestampFormat.Valid then c.TimestampFormat.Value else gcs.TimestampFormat
          Placement := if c.Placement.Valid then c.Placement.Value else gcs.Placement },
       [ApiCall.getGCS c.fetchInput]) := by
  simp only [UpdateCommand.createInput, hget, hsrc, ite_false]
  refine Prod.ext ?_ rfl
  refine congrArg Except.ok ?_
  ext <;> simp only [apply_ite UpdateGCSInput.Service, apply_ite UpdateGCSInput.Version, apply_ite UpdateGCSInput.Name, apply_ite UpdateGCSInput.NewName, apply_ite UpdateGCSInput.Bucket, apply_ite UpdateGCSInput.User, apply_ite UpdateGCSInput.SecretKey, apply_ite UpdateGCSInput.Path, apply_ite UpdateGCSInput.Period, apply_ite UpdateGCSInput.FormatVersion, apply_ite UpdateGCSInput.GzipLevel, apply_ite UpdateGCSInput.Format, apply_ite UpdateGCSInput.MessageType, apply_ite UpdateGCSInput.ResponseCondition, apply_ite UpdateGCSInput.TimestampFormat, apply_ite UpdateGCSInput.Placement, ite_self]

end FastlyGCS

namespace FastlyGCS

theorem createInput_noService (c : UpdateCommand) (client : Client)
    (hsrc : (c.manifest.serviceID).2 = Source.undefined) :
    c.createInput client = (Except.error Err.noServiceID, []) := by
  simp only [UpdateCommand.createInput, hsrc, if_pos]

theorem createInput_get_err (c : UpdateCommand) (client : Client) (e : Err)
    (hsrc : (c.manifest.serviceID).2 ≠ Source.undefined)
    (hget : client.GetGCS c.fetchInput = Except.error e) :
    c.createInput client = (Except.error e, [ApiCall.getGCS c.fetchInput]) := by
  simp only [UpdateCommand.createInput, hsrc, hget, ite_false]

theorem exec_createInput_err (c : UpdateCommand) (client : Client) (e : Err)
    (calls : List ApiCall)
    (h : c.createInput client = (Except.error e, calls)) :
    c.Exec client = (Except.error e, calls, []) := by
  simp only [UpdateCommand.Exec, h]

theorem exec_update_err (c : UpdateCommand) (client : Client)
    (input : UpdateGCSInput) (calls : List ApiCall) (e : Err)
    (h : c.createInput client = (Except.ok input, calls))
    (hup : client.UpdateGCS input = Except.error e) :
    c.Exec client = (Except.error e, calls ++ [ApiCall.updateGCS input], []) := by
  simp only [UpdateCommand.Exec, h, hup]

theorem exec_update_ok (c : UpdateCommand) (client : Client)
    (input : UpdateGCSInput) (calls : List ApiCall) (u : GCS)
    (h : c.createInput client = (Except.ok input, calls))
    (hup : client.UpdateGCS input = Except.ok u) :
    c.Exec client = (Except.ok (), calls ++ [ApiCall.updateGCS input],
      [successMessage u.Name u.ServiceID u.Version]) := by
  simp only [UpdateCommand.Exec, h, hup]

theorem createInput_calls_len (c : UpdateCommand) (client : Client) :
    (c.createInput client).2.length ≤ 1 := by
  rcases hsrc : (c.manifest.serviceID).2 with _ | _ | _
  · rcases hget : client.GetGCS c.fetchInput with e | gcs
    · rw [createInput_get_err c client e (by rw [hsrc]; decide) hget]; simp
    · rw [createInput_get_ok c client gcs (by rw [hsrc]; decide) hget]; simp
  · rcases hget : client.GetGCS c.fetchInput with e | gcs
    · rw [createInput_get_err c client e (by rw [hsrc]; decide) hget]; simp
    · rw [createInput_get_ok c client gcs (by rw [hsrc]; decide) hget]; simp
  · rw [createInput_noService c client hsrc]; simp

theorem createInput_calls_defined (c : UpdateCommand) (client : Client)
    (hsrc : (c.manifest.serviceID).2 ≠ Source.undefined) :
    (c.createInput client).2 = [ApiCall.getGCS c.fetchInput] := by
  rcases hget : client.GetGCS c.fetchInput with e | gcs
  · rw [createInput_get_err c client e hsrc hget]
  · rw [createInput_get_ok c client gcs hsrc hget]

theorem serviceID_ne_empty (m : ManifestData)
    (hsrc : (m.serviceID).2 ≠ Source.undefined) :
    (m.serviceID).1 ≠ "" := by
  unfold ManifestData.serviceID at *
  split_ifs at * with h1 h2
  · exact h1
  · exact h2
  · simp at hsrc

end FastlyGCS

namespace FastlyGCS

theorem exitCode_eq_zero_iff (r : Except Err Unit) :
    exitCode r = 0 ↔ r = Except.ok () := by
  cases r with
  | error e => simp [exitCode]
  | ok u => cases u; simp [exitCode]

/-- C1: for each of the thirteen optional flags, the merged update input
carries the fetched endpoint's field value when the flag is unset, and
the user-supplied value when it is set. -/
theorem C1_optional_flag_merge (c : UpdateCommand) (client : Client)
    (gcs : GCS) (input : UpdateGCSInput)
    (hsrc : (c.manifest.serviceID).2 ≠ Source.undefined)
    (hget : client.GetGCS c.fetchInput = Except.ok gcs)
    (hok : (c.createInput client).1 = Except.ok input) :
    input.NewName = (if c.NewName.Valid then c.NewName.Value else gcs.Name) ∧
    input.Bucket = (if c.Bucket.Valid then c.Bucket.Value else gcs.Bucket) ∧
    input.User = (if c.User.Valid then c.User.Value else gcs.User) ∧
    input.SecretKey = (if c.SecretKey.Valid then c.SecretKey.Value else gcs.SecretKey) ∧
    input.Path = (if c.Path.Valid then c.Path.Value else gcs.Path) ∧
    input.Period = (if c.Period.Valid then c.Period.Value else gcs.Period) ∧
    input.FormatVersion = (if c.FormatVersion.Valid then c.FormatVersion.Value else gcs.FormatVersion) ∧
    input.GzipLevel = (if c.GzipLevel.Valid then c.GzipLevel.Value else gcs.GzipLevel) ∧
    input.Format = (if c.Format.Valid then c.Format.Value else gcs.Format) ∧
    input.ResponseCondition = (if c.ResponseCondition.Valid then c.ResponseCondition.Value else gcs.ResponseCondition) ∧
    input.TimestampFormat = (if c.TimestampFormat.Valid then c.TimestampFormat.Value else gcs.TimestampFormat) ∧
    input.MessageType = (if c.MessageType.Valid then c.MessageType.Value else gcs.MessageType) ∧
    input.Placement = (if c.Placement.Valid then c.Placement.Value else gcs.Placement) := by
  rw [createInput_get_ok c client gcs hsrc hget] at hok
  injection hok with h
  subst h
  exact ⟨rfl, rfl, rfl, rfl, rfl, rfl, rfl, rfl, rfl, rfl, rfl, rfl, rfl⟩

/-- C2: when no service ID resolves from flag or manifest, `createInput`
returns `ErrNoServiceID` and no client call is issued; `Exec` surfaces the
same error with an empty call trace and no output. -/
theorem C2_no_service_id (c : UpdateCommand) (client : Client)
    (hsrc : (c.manifest.serviceID).2 = Source.undefined) :
    c.createInput client = (Except.error Err.noServiceID, []) ∧
    c.Exec client = (Except.error Err.noServiceID, [], []) := by
  have h := createInput_noService c client hsrc
  exact ⟨h, exec_createInput_err c client _ _ h⟩

/-- C3: `Exec` succeeds exactly when input construction and the update
call both succeed; any error (local validation, `GetGCS`, or `UpdateGCS`)
is returned unchanged; the exit code is zero exactly on success. -/
theorem C3_exec_result_characterization (c : UpdateCommand) (client : Client) :
    (exitCode (c.Exec client).1 = 0 ↔ (c.Exec client).1 = Except.ok ()) ∧
    ((c.Exec client).1 = Except.ok () ↔
      ∃ input u, (c.createInput client).1 = Except.ok input ∧
        client.UpdateGCS input = Except.ok u) ∧
    (∀ e, (c.createInput client).1 = Except.error e →
      (c.Exec client).1 = Except.error e) ∧
    (∀ input e, (c.createInput client).1 = Except.ok input →
      client.UpdateGCS input = Except.error e →
      (c.Exec client).1 = Except.error e) := by
  refine ⟨exitCode_eq_zero_iff _, ?_, ?_, ?_⟩
  · rcases hci : c.createInput client with ⟨r, calls⟩
    cases r with
    | error e =>
      rw [exec_createInput_err c client e calls hci]
      constructor
      · intro h; simp at h
      · rintro ⟨input, u, h1, h2⟩
        simp at h1
    | ok input =>
      rcases hup : client.UpdateGCS input with e | u
      · rw [exec_update_err c client input calls e hci hup]
        constructor
        · intro h; simp at h
        · rintro ⟨input', u, h1, h2⟩
          simp at h1
          subst h1
          rw [hup] at h2; simp at h2
      · rw [exec_update_ok c client input calls u hci hup]
        constructor
        · intro _
          exact ⟨input, u, rfl, hup⟩
        · intro _; rfl
  · rcases hci : c.createInput client with ⟨r, calls⟩
    intro e he
    simp at he
    subst he
    rw [exec_createInput_err c client e calls hci]
  · rcases hci : c.createInput client with ⟨r, calls⟩
    intro input e h1 h2
    simp at h1
    subst h1
    rw [exec_update_err c client input calls e hci h2]

end FastlyGCS

namespace FastlyGCS

/-- C4 (amended): an invocation issues at most two client calls. -/
theorem C4_amended_at_most_two_calls (c : UpdateCommand) (client : Client) :
    (c.Exec client).2.1.length ≤ 2 := by
  rcases hci : c.createInput client with ⟨r, calls⟩
  have hlen : calls.length ≤ 1 := by
    have h := createInput_calls_len c client
    rw [hci] at h
    exact h
  cases r with
  | error e =>
    rw [exec_createInput_err c client e calls hci]
    simp only []
    omega
  | ok input =>
    rcases hup : client.UpdateGCS input with e | u
    · rw [exec_update_err c client input calls e hci hup]
      simp only [List.length_append, List.length_cons, List.length_nil]
      omega
    · rw [exec_update_ok c client input calls u hci hup]
      simp only [List.length_append, List.length_cons, List.length_nil]
      omega


/-- C4 (counterexample): a successful invocation issues two client calls,
`GetGCS` and then `UpdateGCS`, refuting "at most one client call". -/
theorem C4_counterexample_two_calls :
    (cmd0.Exec client0).2.1.length = 2 ∧ ¬ (cmd0.Exec client0).2.1.length ≤ 1 := by
  decide

end FastlyGCS

namespace FastlyGCS

/-- C5: on a successful update, `Exec` writes one formatted success line
containing the updated endpoint's name, its service ID, and its version. -/
theorem C5_success_message_contents (c : UpdateCommand) (client : Client)
    (input : UpdateGCSInput) (u : GCS)
    (hok : (c.createInput client).1 = Except.ok input)
    (hup : client.UpdateGCS input = Except.ok u) :
    ∃ pre mid1 mid2 post : String,
      (c.Exec client).2.2 =
        [pre ++ u.Name ++ mid1 ++ u.ServiceID ++ mid2 ++ toString u.Version ++ post] := by
  rcases hci : c.createInput client with ⟨r, calls⟩
  rw [hci] at hok
  simp at hok
  subst hok
  rw [exec_update_ok c client input calls u hci hup]
  exact ⟨"SUCCESS: Updated GCS logging endpoint ", " (service ", " version ", ")", rfl⟩

/-- C6: with the required `--name` flag enforced non-empty at parse time,
every `GetGCS` request issued by an invocation carries a non-empty service
ID, a non-empty endpoint name, and the `--version` flag value. -/
theorem C6_required_fields_nonempty (c : UpdateCommand) (client : Client)
    (hname : c.EndpointName ≠ "") (gi : GetGCSInput)
    (hmem : ApiCall.getGCS gi ∈ (c.Exec client).2.1) :
    gi.Service ≠ "" ∧ gi.Name ≠ "" ∧ gi.Version = c.Version := by
  by_cases hsrc : (c.manifest.serviceID).2 = Source.undefined
  · rw [exec_createInput_err c client Err.noServiceID []
      (createInput_noService c client hsrc)] at hmem
    simp at hmem
  · have hgi : gi = c.fetchInput := by
      rcases hget : client.GetGCS c.fetchInput with e | gcs
      · rw [exec_createInput_err c client e [ApiCall.getGCS c.fetchInput]
          (createInput_get_err c client e hsrc hget)] at hmem
        simpa using hmem
      · have hci := createInput_get_ok c client gcs hsrc hget
        rcases hup : client.UpdateGCS _ with e | u
        · rw [exec_update_err c client _ _ e hci hup] at hmem
          simpa using hmem
        · rw [exec_update_ok c client _ _ u hci hup] at hmem
          simpa using hmem
    subst hgi
    exact ⟨serviceID_ne_empty c.manifest hsrc, hname, rfl⟩

/-- C7: the service ID in the fetch request comes from the `--service-id`
flag when given, otherwise from the manifest file; resolution fails only
when neither defines one. -/
theorem C7_service_id_resolution (c : UpdateCommand) (client : Client) :
    (c.manifest.flagServiceID ≠ "" →
      c.manifest.serviceID = (c.manifest.flagServiceID, Source.flag) ∧
      (c.createInput client).2 =
        [ApiCall.getGCS
          { Service := c.manifest.flagServiceID
            Name := c.EndpointName
            Version := c.Version }]) ∧
    (c.manifest.flagServiceID = "" → c.manifest.fileServiceID ≠ "" →
      c.manifest.serviceID = (c.manifest.fileServiceID, Source.file) ∧
      (c.createInput client).2 =
        [ApiCall.getGCS
          { Service := c.manifest.fileServiceID
            Name := c.EndpointName
            Version := c.Version }]) ∧
    (c.manifest.flagServiceID = "" → c.manifest.fileServiceID = "" →
      c.createInput client = (Except.error Err.noServiceID, [])) := by
  refine ⟨?_, ?_, ?_⟩
  · intro hflag
    have hsid : c.manifest.serviceID = (c.manifest.flagServiceID, Source.flag) := by
      simp [ManifestData.serviceID, hflag]
    refine ⟨hsid, ?_⟩
    rw [createInput_calls_defined c client (by rw [hsid]; simp)]
    simp [UpdateCommand.fetchInput, hsid]
  · intro hflag hfile
    have hsid : c.manifest.serviceID = (c.manifest.fileServiceID, Source.file) := by
      simp [ManifestData.serviceID, hflag, hfile]
    refine ⟨hsid, ?_⟩
    rw [createInput_calls_defined c client (by rw [hsid]; simp)]
    simp [UpdateCommand.fetchInput, hsid]
  · intro hflag hfile
    exact createInput_noService c client (by simp [ManifestData.serviceID, hflag, hfile])

/-- C8: without `--new-name`, the merged input's `NewName` is the name the
`GetGCS` call returned, so the endpoint keeps its current name. -/
theorem C8_newname_defaults_to_current (c : UpdateCommand) (client : Client)
    (gcs : GCS) (input : UpdateGCSInput)
    (hsrc : (c.manifest.serviceID).2 ≠ Source.undefined)
    (hget : client.GetGCS c.fetchInput = Except.ok gcs)
    (hnn : c.NewName.Valid = false)
    (hok : (c.createInput client).1 = Except.ok input) :
    input.NewName = gcs.Name := by
  rw [createInput_get_ok c client gcs hsrc hget] at hok
  injection hok with h
  subst h
  simp [hnn]

/-- C9: when the fetch fails, `createInput` returns that error after the
single `GetGCS` call, and `Exec` surfaces it with no `UpdateGCS` call and
no output. -/
theorem C9_get_error_stops_update (c : UpdateCommand) (client : Client) (e : Err)
    (hsrc : (c.manifest.serviceID).2 ≠ Source.undefined)
    (hget : client.GetGCS c.fetchInput = Except.error e) :
    c.createInput client = (Except.error e, [ApiCall.getGCS c.fetchInput]) ∧
    c.Exec client = (Except.error e, [ApiCall.getGCS c.fetchInput], []) := by
  have h := createInput_get_err c client e hsrc hget
  exact ⟨h, exec_createInput_err c client e _ h⟩

/-- C10: the success message is built from the object the `UpdateGCS` call
returned, not from the flag values. -/
theorem C10_message_from_update_response (c : UpdateCommand) (client : Client)
    (input : UpdateGCSInput) (u : GCS)
    (hok : (c.createInput client).1 = Except.ok input)
    (hup : client.UpdateGCS input = Except.ok u) :
    (c.Exec client).2.2 = [successMessage u.Name u.ServiceID u.Version] := by
  rcases hci : c.createInput client with ⟨r, calls⟩
  rw [hci] at hok
  simp at hok
  subst hok
  rw [exec_update_ok c client input calls u hci hup]

end FastlyGCS

namespace FastlyGCS

/-- C1 witness: the merge theorem instantiated at a concrete invocation. -/
theorem C1_optional_flag_merge_witness :
    input0.NewName = (if cmd0.NewName.Valid then cmd0.NewName.Value else gcs0.Name) ∧
    input0.Bucket = (if cmd0.Bucket.Valid then cmd0.Bucket.Value else gcs0.Bucket) ∧
    input0.User = (if cmd0.User.Valid then cmd0.User.Value else gcs0.User) ∧
    input0.SecretKey = (if cmd0.SecretKey.Valid then cmd0.SecretKey.Value else gcs0.SecretKey) ∧
    input0.Path = (if cmd0.Path.Valid then cmd0.Path.Value else gcs0.Path) ∧
    input0.Period = (if cmd0.Period.Valid then cmd0.Period.Value else gcs0.Period) ∧
    input0.FormatVersion = (if cmd0.FormatVersion.Valid then cmd0.FormatVersion.Value else gcs0.FormatVersion) ∧
    input0.GzipLevel = (if cmd0.GzipLevel.Valid then cmd0.GzipLevel.Value else gcs0.GzipLevel) ∧
    input0.Format = (if cmd0.Format.Valid then cmd0.Format.Value else gcs0.Format) ∧
    input0.ResponseCondition = (if cmd0.ResponseCondition.Valid then cmd0.ResponseCondition.Value else gcs0.ResponseCondition) ∧
    input0.TimestampFormat = (if cmd0.TimestampFormat.Valid then cmd0.TimestampFormat.Value else gcs0.TimestampFormat) ∧
    input0.MessageType = (if cmd0.MessageType.Valid then cmd0.MessageType.Value else gcs0.MessageType) ∧
    input0.Placement = (if cmd0.Placement.Valid then cmd0.Placement.Value else gcs0.Placement) :=
  C1_optional_flag_merge cmd0 client0 gcs0 input0 (by decide) rfl rfl

/-- C2 witness: an invocation with no service ID from flag or manifest. -/
theorem C2_no_service_id_witness :
    cmdNoID.createInput client0 = (Except.error Err.noServiceID, []) ∧
    cmdNoID.Exec client0 = (Except.error Err.noServiceID, [], []) :=
  C2_no_service_id cmdNoID client0 rfl

/-- C3 witness: a concrete invocation on which both calls succeed. -/
theorem C3_exec_result_characterization_witness :
    (cmd0.Exec client0).1 = Except.ok () :=
  ((C3_exec_result_characterization cmd0 client0).2.1).mpr
    ⟨input0, updated0, rfl, rfl⟩

/-- C5 witness: the success line of a concrete successful invocation. -/
theorem C5_success_message_contents_witness :
    ∃ pre mid1 mid2 post : String,
      (cmd0.Exec client0).2.2 =
        [pre ++ updated0.Name ++ mid1 ++ updated0.ServiceID ++ mid2 ++
          toString updated0.Version ++ post] :=
  C5_success_message_contents cmd0 client0 input0 updated0 rfl rfl

/-- C6 witness: the fetch request of a concrete invocation has non-empty
required fields. -/
theorem C6_required_fields_nonempty_witness :
    cmd0.fetchInput.Service ≠ "" ∧ cmd0.fetchInput.Name ≠ "" ∧
    cmd0.fetchInput.Version = cmd0.Version :=
  C6_required_fields_nonempty cmd0 client0 (by decide) cmd0.fetchInput (by decide)

/-- C7 witness: a concrete invocation resolving the service ID from the flag. -/
theorem C7_service_id_resolution_witness :
    cmd0.manifest.serviceID = (cmd0.manifest.flagServiceID, Source.flag) ∧
    (cmd0.createInput client0).2 =
      [ApiCall.getGCS
        { Service := cmd0.manifest.flagServiceID
          Name := cmd0.EndpointName
          Version := cmd0.Version }] :=
  (C7_service_id_resolution cmd0 client0).1 (by decide)

/-- C8 witness: a concrete invocation without `--new-name` keeps the
fetched name. -/
theorem C8_newname_defaults_to_current_witness :
    input1.NewName = gcs0.Name :=
  C8_newname_defaults_to_current cmd1 client0 gcs0 input1 (by decide) rfl rfl rfl

/-- C9 witness: a concrete invocation whose fetch fails. -/
theorem C9_get_error_stops_update_witness :
    cmd0.createInput clientErr = (Except.error (Err.api boomMsg), [ApiCall.getGCS cmd0.fetchInput]) ∧
    cmd0.Exec clientErr = (Except.error (Err.api boomMsg), [ApiCall.getGCS cmd0.fetchInput], []) :=
  C9_get_error_stops_update cmd0 clientErr (Err.api boomMsg) (by decide) rfl

/-- C10 witness: the printed name is the one the update response reports. -/
theorem C10_message_from_update_response_witness :
    (cmd0.Exec client0).2.2 =
      [successMessage updated0.Name updated0.ServiceID updated0.Version] :=
  C10_message_from_update_response cmd0 client0 input0 updated0 rfl rfl

end FastlyGCS
